import Mathlib

/-!
Verification of the `pootle/frameworks` messaging core (messageMan.py,
messageMan_sel.py) against its natural-language specification.

The development shallowly embeds the Python code:

* bytes are `List Nat` (byte values 0..255);
* the pickle library is modelled by a concrete injective serializer
  `dumps` / best-effort parser `loads` (the codec treats payload bytes as
  opaque, so any deterministic serializer that fails on truncated input is
  a faithful stand-in for `pickle.dumps(.., protocol=2)` / `pickle.loads`);
* Python exceptions are values of `PyExc`, and fallible code returns
  `Except PyExc _`;
* stateful objects (`sockreadwriter`, `baseSocket`, `autoSocket`,
  `timerSelector`) become structures with explicit state passing, and
  side effects on collaborators (selector registration, socket close,
  timer scheduling, state-change callbacks, dispatch) are recorded as
  explicit event lists.
-/

namespace MessageMan

/-- Python exception values that the embedded code can raise. -/
inductive PyExc where
  | zeroDivision
  | valueError
  | unpickleError
  | nameError (n : String)
  | attributeError (n : String)
  | osError (msg : String)
  | userRaised
  | recursionError
  deriving DecidableEq, Repr

/-- Byte value of an ASCII decimal digit test (48 = code of the zero digit). -/
def isDigitB (b : Nat) : Bool := Nat.ble 48 b && Nat.ble b 57

/-- Value of a most-significant-first ASCII digit list. -/
def digitsToNat (l : List Nat) : Nat :=
  l.foldl (fun acc b => acc * 10 + (b - 48)) 0

/-- Strips leading and trailing ASCII spaces (byte 32). -/
def trimSpaces (bs : List Nat) : List Nat :=
  ((bs.dropWhile (fun b => b == 32)).reverse.dropWhile (fun b => b == 32)).reverse

/-- Model of the Python builtin `int()` applied to an ASCII byte string, in
the scope exercised by the codec: surrounding spaces are stripped, a
non-empty all-digit body parses as a decimal number, anything else raises
ValueError (`none`). Signs are not modelled; the codec only feeds it
space-padded unsigned decimal fields. -/
def pyInt (bs : List Nat) : Option Nat :=
  let core := trimSpaces bs
  if core = [] then none
  else if core.all isDigitB then some (digitsToNat core) else none

/-- Decimal digits of a positive number, most significant first; fuel-driven
(the first argument bounds the number of digits, `n + 1` always suffices). -/
def natDigitsCore : Nat → Nat → List Nat
  | 0, _ => []
  | _ + 1, 0 => []
  | fuel + 1, n + 1 => natDigitsCore fuel ((n + 1) / 10) ++ [(n + 1) % 10 + 48]

/-- ASCII decimal representation of a natural number. -/
def natDigits (n : Nat) : List Nat :=
  if n = 0 then [48] else natDigitsCore (n + 1) n

/-- Model of the Python format `b'%10d' % n` used by `writemessage`
(messageMan.py line 321): the decimal digits of `n` right-justified in a
10-byte field padded with spaces. -/
def header10 (n : Nat) : List Nat :=
  let d := natDigits n
  List.replicate (10 - d.length) 32 ++ d

/-- A Message as carried on the wire: the pickled object is the pair
`(method, kwargs)` built in `runFunc` (messageMan.py lines 133 and 248).
Method names and kwargs keys/values are byte strings. -/
structure Message where
  method : List Nat
  kwargs : Option (List (List Nat × List Nat))
  deriving DecidableEq, Repr

/-- Length-prefixed encoding of one byte string, used by the pickle model. -/
def encBS (s : List Nat) : List Nat := natDigits s.length ++ [58] ++ s

/-- Encoding of one kwargs pair, used by the pickle model. -/
def encPair (p : List Nat × List Nat) : List Nat := encBS p.1 ++ encBS p.2

/-- Model of `pickle.dumps(msg, protocol=2)` (messageMan.py line 320): a
concrete deterministic injective serialization of a Message. Tag byte 78
marks an absent kwargs mapping, 68 a present one. -/
def dumps (m : Message) : List Nat :=
  match m.kwargs with
  | none => 78 :: encBS m.method
  | some kws =>
      68 :: (encBS m.method ++ natDigits kws.length ++ [58] ++ (kws.map encPair).flatten)

/-- Parses a decimal number from the front of a byte list. -/
def takeNat (bs : List Nat) : Option (Nat × List Nat) :=
  let ds := bs.takeWhile isDigitB
  let rest := bs.dropWhile isDigitB
  if ds = [] then none else some (digitsToNat ds, rest)

/-- Parses one length-prefixed byte string from the front of a byte list,
failing on truncated input. -/
def takeBS (bs : List Nat) : Option (List Nat × List Nat) :=
  match takeNat bs with
  | none => none
  | some (n, rest) =>
      match rest with
      | 58 :: r2 => if n ≤ r2.length then some (r2.take n, r2.drop n) else none
      | _ => none

/-- Parses `k` kwargs pairs from the front of a byte list. -/
def takePairs : Nat → List Nat → Option (List (List Nat × List Nat) × List Nat)
  | 0, bs => some ([], bs)
  | k + 1, bs =>
      match takeBS bs with
      | none => none
      | some (a, r1) =>
          match takeBS r1 with
          | none => none
          | some (b, r2) =>
              match takePairs k r2 with
              | none => none
              | some (ps, r3) => some ((a, b) :: ps, r3)

/-- Model of `pickle.loads` (messageMan.py line 309): inverts `dumps` and
fails (`none`, standing for UnpicklingError) on bytes that are not a
complete serialized Message, in particular on truncated input. -/
def loads (bs : List Nat) : Option Message :=
  match bs with
  | 78 :: rest =>
      match takeBS rest with
      | some (m, []) => some { method := m, kwargs := none }
      | _ => none
  | 68 :: rest =>
      match takeBS rest with
      | none => none
      | some (m, r1) =>
          match takeNat r1 with
          | some (k, 58 :: r2) =>
              match takePairs k r2 with
              | some (ps, []) => some { method := m, kwargs := some ps }
              | _ => none
          | _ => none
  | _ => none

/-- State of the `sockreadwriter` codec (messageMan.py lines 259-313):
`instate` is 0 when awaiting a fresh 10-byte header, negative when part of
a header is buffered (its magnitude is the number of header bytes still
missing), positive when `instate` payload bytes are still missing;
`partdata` is the pending-byte accumulator. -/
structure SockReadWriter where
  instate : Int
  partdata : List Nat
  deriving DecidableEq, Repr

/-- State established by `sockreadwriter.reset` (messageMan.py lines 270-272). -/
def SockReadWriter.reset : SockReadWriter := { instate := 0, partdata := [] }

/-- Embedding of `sockreadwriter.requestreadlength` (messageMan.py lines
274-285): number of bytes the caller should request for the next read. -/
def requestreadlength (s : SockReadWriter) : Int :=
  if s.instate = 0 then 10
  else if s.instate < 0 then -s.instate
  else s.instate

/-- Embedding of `sockreadwriter.morereaddata` (messageMan.py lines
287-313). In the header branch a completed 10-byte header is parsed with
`int(rdata)` — the source parses only the chunk just received, not the
accumulated `mdata` (line 297). The `5 / 0` crash planted for an
over-long header accumulation (line 302) is the `zeroDivision` error, a
failing `int()` is `valueError`, and a failing `pickle.loads` is
`unpickleError`. -/
def morereaddata (s : SockReadWriter) (rdata : List Nat) :
    Except PyExc (SockReadWriter × Option Message) :=
  if s.instate ≤ 0 then
    let mdata := s.partdata ++ rdata
    if mdata.length = 10 then
      match pyInt rdata with
      | none => Except.error PyExc.valueError
      | some n => Except.ok ({ instate := (n : Int), partdata := [] }, none)
    else
      let instate2 : Int := (mdata.length : Int) - 10
      if instate2 > 0 then Except.error PyExc.zeroDivision
      else Except.ok ({ instate := instate2, partdata := mdata }, none)
  else
    let mdata := s.partdata ++ rdata
    let instate2 : Int := s.instate - (rdata.length : Int)
    if instate2 = 0 then
      match loads mdata with
      | none => Except.error PyExc.unpickleError
      | some m => Except.ok ({ instate := 0, partdata := [] }, some m)
    else
      Except.ok ({ instate := instate2, partdata := mdata }, none)

/-- Embedding of `sockreadwriter.writemessage` (messageMan.py lines
315-323): the bytes sent for one message, a 10-byte right-justified
decimal length field followed by the pickled payload. -/
def writemessage (m : Message) : List Nat :=
  header10 (dumps m).length ++ dumps m

/-- Feeds a list of read chunks through `morereaddata` in order, collecting
every reconstructed Message; an exception raised mid-stream aborts the run. -/
def feedChunks (s : SockReadWriter) :
    List (List Nat) → Except PyExc (SockReadWriter × List Message)
  | [] => Except.ok (s, [])
  | c :: cs =>
      match morereaddata s c with
      | Except.error e => Except.error e
      | Except.ok (s2, om) =>
          match feedChunks s2 cs with
          | Except.error e => Except.error e
          | Except.ok (s3, ms) => Except.ok (s3, om.toList ++ ms)

/-- Holds when every chunk is non-empty and no longer than the read size the
codec requested in the state it was fed into (the contract of
`requestreadlength`); chunks past a raising call are unconstrained since
the run has already aborted. -/
def respectsReadLens : SockReadWriter → List (List Nat) → Bool
  | _, [] => true
  | s, c :: cs =>
      decide (0 < c.length) && decide ((c.length : Int) ≤ requestreadlength s) &&
        (match morereaddata s c with
         | Except.error _ => true
         | Except.ok (s2, _) => respectsReadLens s2 cs)

/-- Concrete probe message whose encoding has a two-digit payload length:
the serialized payload is 16 bytes, so the header is 8 spaces followed by
the digits 1 and 6. -/
def probeMsg : Message := { method := List.replicate 12 97, kwargs := none }

/-- A legal chunking of `writemessage probeMsg` (each chunk respects the
requested read size) that splits the 10-byte header between its two length
digits: 9 header bytes, then the final header byte, then the payload in
pieces of 6, 6 and 4 bytes. -/
def probeChunks : List (List Nat) :=
  [(writemessage probeMsg).take 9,
   ((writemessage probeMsg).drop 9).take 1,
   ((writemessage probeMsg).drop 10).take 6,
   ((writemessage probeMsg).drop 16).take 6,
   (writemessage probeMsg).drop 22]

/-- Keyword-argument mappings handed to an invoked method; the concrete
value type is irrelevant to the dispatch wrapper. -/
abbrev Kw := List (String × Nat)

/-- Outcome of calling an application method: a returned value (discarded by
the wrapper) or a raised exception. -/
inductive CallResult where
  | ret (v : Nat)
  | exc (e : PyExc)

/-- A target object, modelled by its capability surface: the named methods
it exposes. `getattr(targetob, method, None)` is `List.lookup`. -/
structure TargetOb where
  methods : List (String × (Option Kw → CallResult))

/-- Attribute lookup on a target object. -/
def getMethod (t : TargetOb) (m : String) : Option (Option Kw → CallResult) :=
  t.methods.lookup m

/-- Structured failure records printed by the dispatch wrapper. -/
inductive LogRec where
  | methodFail (etype : String) (value : String)
  | excRecord (e : PyExc)
  deriving DecidableEq, Repr

/-- Embedding of the module-level `wrappedRunMethod` (messageMan.py lines
51-67). messageMan.py imports `sys` and `traceback` (line 16), so every
statement of the bare `except:` block is defined and total; the records it
prints are returned as the log list. A raised exception would surface as
`Except.error`; the wrapper never produces one. -/
def wrappedRunMethod (t : TargetOb) (method : String) (kwargs : Option Kw) :
    Except PyExc (List LogRec) :=
  match getMethod t method with
  | none => Except.ok [LogRec.methodFail "AttributeError" method]
  | some func =>
      match func kwargs with
      | CallResult.ret _ => Except.ok []
      | CallResult.exc e => Except.ok [LogRec.excRecord e]

/-- Result of constructing a listener: whether the accepting socket was
registered with the event loop for read-readiness. -/
structure ListenerState where
  registered : Bool
  deriving DecidableEq, Repr

/-- Method names resolvable on a `selListener` instance: those defined by
`selListener` (messageMan_sel.py lines 23-30) and inherited from
`baseListener` (messageMan.py lines 24-49). -/
def selListenerAttrs : List String :=
  ["registerlisten", "unregisterlisten", "connectrequest", "closelistener"]

/-- Embedding of `selListener.registerlisten` (messageMan_sel.py lines
26-27): it registers `self.connectRequest` with the selector, so it first
resolves the attribute `connectRequest` on the instance; the lookup raises
AttributeError when no class in the hierarchy defines that name. The
selector `register` call itself does not raise for a fresh socket. -/
def selRegisterlisten : Except PyExc ListenerState :=
  if selListenerAttrs.contains "connectRequest" then
    Except.ok { registered := true }
  else Except.error (PyExc.attributeError "connectRequest")

/-- Embedding of `baseListener.__init__` as specialized by `selListener`
(messageMan.py lines 24-35): socket creation, `setsockopt` and `listen(4)`
are modelled as non-raising for a bindable address; `bind` may fail, which
is the `bindResult` parameter, and any exception from the subsequent
`registerlisten()` call propagates to the caller. -/
def selListenerInit (bindResult : Except PyExc Unit) : Except PyExc ListenerState :=
  match bindResult with
  | Except.error e => Except.error e
  | Except.ok _ => selRegisterlisten

/-- Side effects of a passive peer, recorded in order. -/
inductive BEvent where
  | reportGone
  | unregister
  | sockClose
  | dispatch (m : Message)
  deriving DecidableEq, Repr

/-- State of a `baseSocket` passive peer (messageMan.py lines 69-134):
whether the socket is open, the codec state, whether a `reportGone`
callback was supplied, and the inbound message counter. -/
structure BaseSocket where
  iosock : Bool
  rwagent : SockReadWriter
  reportGonePresent : Bool
  msgInCount : Nat
  name : String
  deriving DecidableEq, Repr

/-- Embedding of `baseSocket.closeLink` (messageMan.py lines 94-100):
deregisters and closes the socket. -/
def BaseSocket.closeLink (b : BaseSocket) : BaseSocket × List BEvent :=
  ({ b with iosock := false }, [BEvent.unregister, BEvent.sockClose])

/-- Embedding of `baseSocket.connectionLost` (messageMan.py lines 126-130):
invokes the `reportGone` callback when one was supplied, then `closeLink`. -/
def BaseSocket.connectionLost (b : BaseSocket) : BaseSocket × List BEvent :=
  let e1 := if b.reportGonePresent then [BEvent.reportGone] else []
  let p := BaseSocket.closeLink b
  (p.1, e1 ++ p.2)

/-- Outcome of the `recv` call inside `processReady`, covering the branches
the source distinguishes: ConnectionResetError, OSError with errno 107,
any other OSError, or delivered data (zero bytes meaning the peer closed). -/
inductive ReadOutcome where
  | connReset
  | osError107
  | osErrorOther (errno : Nat)
  | data (bytes : List Nat)

/-- Embedding of `baseSocket.processReady` (messageMan.py lines 102-124):
read exceptions and a zero-byte read go through `connectionLost`; otherwise
the bytes are fed to the codec, and a completed Message bumps the inbound
counter and is dispatched (the dispatch itself is `wrappedRunMethod`,
modelled separately). An exception raised by the codec propagates. -/
def BaseSocket.processReady (b : BaseSocket) (r : ReadOutcome) :
    Except PyExc (BaseSocket × List BEvent) :=
  match r with
  | ReadOutcome.connReset => Except.ok b.connectionLost
  | ReadOutcome.osError107 => Except.ok b.connectionLost
  | ReadOutcome.osErrorOther _ => Except.ok b.connectionLost
  | ReadOutcome.data [] => Except.ok b.connectionLost
  | ReadOutcome.data rdata =>
      match morereaddata b.rwagent rdata with
      | Except.error e => Except.error e
      | Except.ok (rw2, none) => Except.ok ({ b with rwagent := rw2 }, [])
      | Except.ok (rw2, some m) =>
          Except.ok ({ b with rwagent := rw2, msgInCount := b.msgInCount + 1 },
            [BEvent.dispatch m])

/-- Side effects of the active peer, recorded in order: state-change
callback invocations, retry-timer scheduling of `tryConnect` through
`setfwCallback`, selector registration changes, socket close, payload
write, and inbound dispatch. Every delay the source can schedule is an
exact multiple of 0.5 seconds (`retrycount * 0.5` capped at 4), so the
delay is recorded exactly in half-second units; `halvesToSeconds` converts
back to seconds. -/
inductive AEvent where
  | reportState (name : String) (st : String)
  | schedule (delayHalves : Nat)
  | register
  | unregister
  | sockClose
  | send (bytes : List Nat)
  | dispatch (m : Message)
  deriving DecidableEq, Repr

/-- State of an `autoSocket` active peer (messageMan.py lines 136-255).
`reportStatePresent` records whether a `reportState` callback was supplied;
printing and the `messagelim` print throttle are not modelled. -/
structure AutoSocket where
  state : String
  retrycount : Nat
  iosock : Bool
  rwagent : SockReadWriter
  reportStatePresent : Bool
  name : String
  msgInCount : Nat
  msgOutCount : Nat
  deriving DecidableEq, Repr

/-- Embedding of `autoSocket.updateState` (messageMan.py lines 171-177):
stores the new state and fires the optional callback only when the state
actually changes. -/
def updateState (a : AutoSocket) (newstate : String) : AutoSocket × List AEvent :=
  if newstate ≠ a.state then
    ({ a with state := newstate },
     if a.reportStatePresent then [AEvent.reportState a.name newstate] else [])
  else (a, [])

/-- Conversion of a half-second-unit delay to seconds. -/
def halvesToSeconds (h : Nat) : Rat := (h : Rat) / 2

/-- The retry delay computed by `setRetryConnect` (messageMan.py lines
181-183) for a given post-increment retry count, in half-second units:
the source computes `delay = retrycount * 0.5` and caps it at 4 seconds.
Both the product and the comparison are exact in binary floating point,
and `retrycount * 0.5 > 4` holds exactly when `retrycount > 8`, so the
half-second integer arithmetic models the float arithmetic faithfully. -/
def retryDelayHalves (r : Nat) : Nat :=
  if r > 8 then 8 else r

/-- Embedding of `autoSocket.setRetryConnect` (messageMan.py lines 179-184):
increments the retry counter and schedules `tryConnect` after the capped
linear back-off delay. -/
def setRetryConnect (a : AutoSocket) : AutoSocket × List AEvent :=
  let a2 := { a with retrycount := a.retrycount + 1 }
  (a2, [AEvent.schedule (retryDelayHalves a2.retrycount)])

/-- Outcome of the `connect` call inside `tryConnect`. -/
inductive ConnectOutcome where
  | success
  | refused
  | oserror (msg : String)

/-- Embedding of `autoSocket.tryConnect` (messageMan.py lines 186-200): on
success the peer gets a fresh codec, registers for read-readiness and
moves to state `initiated`; on refusal or any other OS connect error the
socket is dropped, the state becomes `wait retry` and a retry is
scheduled. Note the source performs no check of the current state. -/
def tryConnect (a : AutoSocket) (oc : ConnectOutcome) : AutoSocket × List AEvent :=
  match oc with
  | ConnectOutcome.success =>
      let a1 := { a with iosock := true, rwagent := SockReadWriter.reset }
      let p := updateState a1 "initiated"
      (p.1, AEvent.register :: p.2)
  | ConnectOutcome.refused =>
      let a1 := { a with iosock := false }
      let p := updateState a1 "wait retry"
      let q := setRetryConnect p.1
      (q.1, p.2 ++ q.2)
  | ConnectOutcome.oserror _ =>
      let a1 := { a with iosock := false }
      let p := updateState a1 "wait retry"
      let q := setRetryConnect p.1
      (q.1, p.2 ++ q.2)

/-- Embedding of `autoSocket.closeLink` (messageMan.py lines 202-210):
deregisters and closes the socket when one is open, then moves to state
`closed`. -/
def closeLink (a : AutoSocket) : AutoSocket × List AEvent :=
  if a.iosock then
    let p := updateState { a with iosock := false } "closed"
    (p.1, [AEvent.unregister, AEvent.sockClose] ++ p.2)
  else
    updateState a "closed"

/-- Embedding of `autoSocket.connectionLost` (messageMan.py lines 240-242):
schedules a retry, then moves to state `wait retry`. -/
def connectionLost (a : AutoSocket) : AutoSocket × List AEvent :=
  let p := setRetryConnect a
  let q := updateState p.1 "wait retry"
  (q.1, p.2 ++ q.2)

/-- Outcome of the `writemessage` socket write inside `runFunc`; only
BrokenPipeError is caught by the source. -/
inductive WriteOutcome where
  | success
  | brokenPipe

/-- Embedding of `autoSocket.runFunc` (messageMan.py lines 244-255): a
silent no-op when no socket is open; otherwise the frame is written and on
BrokenPipeError the socket is dropped and `connectionLost` runs. The
trailing `updateState('running', 'msg sent')` at line 255 sits after the
try/except block, so it executes on the broken-pipe path as well. -/
def runFunc (a : AutoSocket) (m : Message) (w : WriteOutcome) : AutoSocket × List AEvent :=
  if a.iosock = false then (a, [])
  else
    match w with
    | WriteOutcome.success =>
        let a1 := { a with msgOutCount := a.msgOutCount + 1 }
        let p := updateState a1 "running"
        (p.1, AEvent.send (writemessage m) :: p.2)
    | WriteOutcome.brokenPipe =>
        let a1 := { a with iosock := false }
        let p := connectionLost a1
        let q := updateState p.1 "running"
        (q.1, AEvent.unregister :: AEvent.sockClose :: (p.2 ++ q.2))

/-- Embedding of `autoSocket.processReady` (messageMan.py lines 212-238):
read exceptions go through `connectionLost`; a zero-byte read closes the
socket and then goes through `connectionLost`; received bytes are fed to
the codec, the retry counter is zeroed, the state becomes `running`, and a
completed Message bumps the inbound counter and is dispatched. An
exception raised by the codec propagates. -/
def processReady (a : AutoSocket) (r : ReadOutcome) :
    Except PyExc (AutoSocket × List AEvent) :=
  match r with
  | ReadOutcome.connReset => Except.ok (connectionLost a)
  | ReadOutcome.osError107 => Except.ok (connectionLost a)
  | ReadOutcome.osErrorOther _ => Except.ok (connectionLost a)
  | ReadOutcome.data [] =>
      let a1 := { a with iosock := false }
      let p := connectionLost a1
      Except.ok (p.1, AEvent.unregister :: AEvent.sockClose :: p.2)
  | ReadOutcome.data rdata =>
      match morereaddata a.rwagent rdata with
      | Except.error e => Except.error e
      | Except.ok (rw2, om) =>
          let a1 := { a with rwagent := rw2, retrycount := 0 }
          let p := updateState a1 "running"
          match om with
          | none => Except.ok (p.1, p.2)
          | some m =>
              Except.ok ({ p.1 with msgInCount := p.1.msgInCount + 1 },
                p.2 ++ [AEvent.dispatch m])

/-- The attribute state set up by `autoSocket.__init__` (messageMan.py
lines 152-163), just before the `tryConnect()` call at line 164. -/
def freshAuto (name : String) (rsPresent : Bool) : AutoSocket :=
  { state := "startup", retrycount := 0, iosock := false,
    rwagent := SockReadWriter.reset, reportStatePresent := rsPresent,
    name := name, msgInCount := 0, msgOutCount := 0 }

/-- Embedding of `autoSocket.__init__` (messageMan.py lines 137-164): sets
up the attributes and immediately runs the first connect attempt. -/
def AutoSocket.construct (name : String) (rsPresent : Bool) (oc : ConnectOutcome) :
    AutoSocket × List AEvent :=
  tryConnect (freshAuto name rsPresent) oc

/-- N consecutive failed (connection-refused) connect attempts starting
from a given peer state, as produced by the construction-time attempt and
the retry timers it schedules; events are accumulated in order. -/
def failTimes : AutoSocket → Nat → AutoSocket × List AEvent
  | a, 0 => (a, [])
  | a, n + 1 =>
      let p := tryConnect a ConnectOutcome.refused
      let q := failTimes p.1 n
      (q.1, p.2 ++ q.2)

/-- The delays (in half-second units) carried by the `schedule` events of
an event list. -/
def scheduleDelays (evs : List AEvent) : List Nat :=
  evs.filterMap (fun e =>
    match e with
    | AEvent.schedule d => some d
    | _ => none)

/-- Whether the module messageMan_sel.py imports `sys`. Its only imports
are `selectors, time, heapq` and `messageMan` (messageMan_sel.py lines
14-15), so the name `sys` used at line 150 is undefined in that module. -/
def sysImportedInSel : Bool := false

/-- State of a `timerSelector` event loop (messageMan_sel.py lines 53-190)
as far as its dispatch wrapper observes it. `crashabortcount` and
`killhandler` are attributes that `__init__` (lines 57-69) never assigns,
so they are `Option`-wrapped: `none` means the attribute does not exist
and reading it raises AttributeError. For `killhandler` the inner layer
distinguishes the attribute being set to the value None from being set to
a handler, a handler being modelled by the outcome of calling it. Timer
callbacks are likewise modelled by their outcomes; the wall-clock and CPU
accounting of lines 142-143 and 165-166 is not modelled. -/
structure TimerSelector where
  running : Bool
  crashabortcount : Option Int
  killhandler : Option (Option (Except PyExc Unit))

/-- The attribute state established by `timerSelector.__init__`
(messageMan_sel.py lines 57-69): `running` is set to True;
`crashabortcount` and `killhandler` are never assigned. -/
def TimerSelector.construct : TimerSelector :=
  { running := true, crashabortcount := none, killhandler := none }

/-- Embedding of `timerSelector.wrappedRunMethod` (messageMan_sel.py lines
141-166), fuel-indexed because the kill-handler branch re-enters the
wrapper. When the callback raises, the handler body runs: its first
statement references `sys` (line 150), which the module never imports, so
it raises NameError; were `sys` imported, the `self.crashabortcount` read
at line 157 would raise AttributeError on a constructed selector since
`__init__` never assigns it. An exception raised inside the handler
propagates out of the wrapper. From any state the re-entry depth is at
most 2 (`crashabortcount` is 0 after the decrement that triggers the
kill-handler call, stopping the nested run), so fuel 2 is exact and the
fuel-exhaustion case is unreachable. -/
def wrappedRunAux : Nat → TimerSelector → Except PyExc Unit → Except PyExc TimerSelector
  | _, ts, Except.ok _ => Except.ok ts
  | 0, _, Except.error _ => Except.error PyExc.recursionError
  | fuel + 1, ts, Except.error _ =>
      if sysImportedInSel then
        match ts.crashabortcount with
        | none => Except.error (PyExc.attributeError "crashabortcount")
        | some c =>
            if 0 < c then
              let ts2 := { ts with crashabortcount := some (c - 1) }
              if c - 1 = 0 then
                match ts2.killhandler with
                | none => Except.error (PyExc.attributeError "killhandler")
                | some none => Except.ok { ts2 with running := false }
                | some (some kh) => wrappedRunAux fuel ts2 kh
              else Except.ok ts2
            else Except.ok ts
      else Except.error (PyExc.nameError "sys")

/-- The dispatch-and-log wrapper of the selector event loop
(messageMan_sel.py lines 141-166). -/
def TimerSelector.wrappedRunMethod (ts : TimerSelector) (meth : Except PyExc Unit) :
    Except PyExc TimerSelector :=
  wrappedRunAux 2 ts meth

/-- Embedding of the timer part of `timerSelector.select` (messageMan_sel.py
lines 124-128): the due bucket is popped and each of its callbacks is run
through `wrappedRunMethod`; an exception escaping the wrapper aborts the
loop over the bucket and propagates out of `select`. -/
def runDueBucket (ts : TimerSelector) :
    List (Except PyExc Unit) → Except PyExc TimerSelector
  | [] => Except.ok ts
  | t :: rest =>
      match ts.wrappedRunMethod t with
      | Except.error e => Except.error e
      | Except.ok ts2 => runDueBucket ts2 rest

theorem updateState_state (a : AutoSocket) (s : String) :
    (updateState a s).1.state = s := by
  unfold updateState
  split
  · rfl
  · next h => simpa using (not_ne_iff.mp h).symm

theorem updateState_retrycount (a : AutoSocket) (s : String) :
    (updateState a s).1.retrycount = a.retrycount := by
  unfold updateState
  split <;> rfl

theorem updateState_events (a : AutoSocket) (s : String) :
    (updateState a s).2 =
      if s = a.state then []
      else if a.reportStatePresent then [AEvent.reportState a.name s] else [] := by
  unfold updateState
  by_cases h : s = a.state
  · simp [h]
  · simp [h]

theorem scheduleDelays_updateState (a : AutoSocket) (s : String) :
    scheduleDelays (updateState a s).2 = [] := by
  rw [updateState_events]
  split
  · rfl
  · split <;> rfl

theorem scheduleDelays_append (l1 l2 : List AEvent) :
    scheduleDelays (l1 ++ l2) = scheduleDelays l1 ++ scheduleDelays l2 := by
  unfold scheduleDelays
  exact List.filterMap_append l1 l2 _

theorem tryConnect_refused_retrycount (a : AutoSocket) :
    (tryConnect a ConnectOutcome.refused).1.retrycount = a.retrycount + 1 := by
  unfold tryConnect setRetryConnect
  simp [updateState_retrycount]

theorem tryConnect_refused_schedules (a : AutoSocket) :
    scheduleDelays (tryConnect a ConnectOutcome.refused).2 =
      [retryDelayHalves (a.retrycount + 1)] := by
  unfold tryConnect setRetryConnect
  rw [scheduleDelays_append, scheduleDelays_updateState, updateState_retrycount]
  rfl

theorem tryConnect_state (a : AutoSocket) (oc : ConnectOutcome) :
    (tryConnect a oc).1.state =
      match oc with
      | ConnectOutcome.success => "initiated"
      | ConnectOutcome.refused => "wait retry"
      | ConnectOutcome.oserror _ => "wait retry" := by
  cases oc <;> simp only [tryConnect, setRetryConnect] <;> exact updateState_state _ _

/-- C7: the dispatch wrapper `wrappedRunMethod` (messageMan.py lines 51-67)
never propagates an exception to its caller: for every target object,
method name and kwargs value it returns normally; when the method name is
absent on the target it emits the structured failure record and returns
without invoking anything, and an exception raised by the invoked method
is caught and converted to a structured exception record. -/
theorem wrappedRunMethod_never_raises (t : TargetOb) (method : String) (kwargs : Option Kw) :
    (wrappedRunMethod t method kwargs).isOk = true
    ∧ (getMethod t method = none →
        wrappedRunMethod t method kwargs =
          Except.ok [LogRec.methodFail "AttributeError" method])
    ∧ (∀ f e, getMethod t method = some f → f kwargs = CallResult.exc e →
        wrappedRunMethod t method kwargs = Except.ok [LogRec.excRecord e]) := by
  refine ⟨?_, ?_, ?_⟩
  · rcases hm : getMethod t method with _ | f
    · simp [wrappedRunMethod, hm, Except.isOk, Except.toBool]
    · rcases hf : f kwargs with v | e <;>
        simp [wrappedRunMethod, hm, hf, Except.isOk, Except.toBool]
  · intro hm
    simp [wrappedRunMethod, hm]
  · intro f e hm hf
    simp [wrappedRunMethod, hm, hf]

/-- Witness for C7: on a target exposing no methods, dispatching the absent
method name `beep` yields exactly the structured failure record. -/
theorem wrappedRunMethod_never_raises_witness :
    wrappedRunMethod { methods := [] } "beep" none =
      Except.ok [LogRec.methodFail "AttributeError" "beep"] :=
  (wrappedRunMethod_never_raises { methods := [] } "beep" none).2.1 rfl

/-- C8: whenever `baseSocket.processReady` (messageMan.py lines 102-124)
observes a read returning 0 bytes — whatever codec state (partially
buffered frame) the peer holds — the result is exactly one `reportGone`
notification (when the callback was provided, none otherwise) followed by
exactly one deregistration and one socket close. -/
theorem processReady_zero_read (b : BaseSocket) :
    BaseSocket.processReady b (ReadOutcome.data []) =
      Except.ok ({ b with iosock := false },
        (if b.reportGonePresent then [BEvent.reportGone] else [])
          ++ [BEvent.unregister, BEvent.sockClose]) := rfl

/-- C9: `autoSocket.updateState` (messageMan.py lines 171-177) fires the
optional state-change callback exactly once, with the peer's name and the
new state, when the new state differs from the stored one, and fires
nothing when the attempted transition re-enters the current state; the
stored state always equals the requested state afterwards. -/
theorem updateState_callback_once (a : AutoSocket) (ns : String) :
    (updateState a ns).1.state = ns
    ∧ (updateState a ns).2 =
        (if ns = a.state then []
         else if a.reportStatePresent then [AEvent.reportState a.name ns] else []) :=
  ⟨updateState_state a ns, updateState_events a ns⟩

/-- C2: a timer callback that raises does not stay inside the selector
loop's dispatch-and-log wrapper: running a due bucket containing one
raising callback on a freshly constructed `timerSelector` propagates a
NameError out of `select` (messageMan_sel.py line 150 references `sys`,
which the module never imports; with that repaired, the uninitialized
`crashabortcount` read at line 157 would raise AttributeError instead),
contradicting the claim that the exception never propagates. -/
theorem runDueBucket_raises :
    runDueBucket TimerSelector.construct [Except.error PyExc.userRaised] =
      Except.error (PyExc.nameError "sys") := rfl

/-- C5: constructing a `selListener` raises even when the bind succeeds:
`registerlisten` (messageMan_sel.py line 27) resolves `self.connectRequest`
but the inherited method is spelled `connectrequest` (messageMan.py line
37), so an AttributeError propagates out of the constructor for every
valid bindable address; a bind failure still propagates as the claim
states. -/
theorem selListenerInit_always_raises :
    selListenerInit (Except.ok ()) = Except.error (PyExc.attributeError "connectRequest")
    ∧ selListenerInit (Except.error (PyExc.osError "bind failure")) =
        Except.error (PyExc.osError "bind failure") := by
  constructor
  · rfl
  · rfl

/-- C1: fragmentation-invariant reassembly fails on the code. The chunking
`probeChunks` of `writemessage probeMsg` respects every requested read
size, yet feeding it aborts with an unpickling error instead of yielding
`probeMsg`: the header completed by the 1-byte second chunk is parsed as
`int(rdata)` (messageMan.py line 297) — the digit 6 alone — instead of the
accumulated 10-byte field reading 16, so the codec takes a 6-byte
truncated payload to be complete. Feeding the same message with the header
intact in one chunk yields exactly the message and a reset codec,
isolating the misparse to digit-splitting fragmentations. -/
theorem morereaddata_split_header_bug :
    probeChunks.flatten = writemessage probeMsg
    ∧ respectsReadLens SockReadWriter.reset probeChunks = true
    ∧ feedChunks SockReadWriter.reset probeChunks = Except.error PyExc.unpickleError
    ∧ feedChunks SockReadWriter.reset
        [(writemessage probeMsg).take 10, (writemessage probeMsg).drop 10] =
        Except.ok (SockReadWriter.reset, [probeMsg]) :=
  ⟨rfl, rfl, rfl, rfl⟩

/-- C3 (failing part): on an open socket, a broken-pipe write closes the
socket and schedules a retry without raising, but does not leave the state
at `wait retry`: the unconditional `updateState('running', 'msg sent')`
after the except block (messageMan.py line 255) moves the peer to
`running` — with no socket open — immediately after the transient
`wait retry` transition. -/
theorem runFunc_brokenPipe_ends_running :
    (runFunc ((AutoSocket.construct "c" true ConnectOutcome.success).1)
        probeMsg WriteOutcome.brokenPipe).1.state = "running"
    ∧ (runFunc ((AutoSocket.construct "c" true ConnectOutcome.success).1)
        probeMsg WriteOutcome.brokenPipe).2 =
        [AEvent.unregister, AEvent.sockClose, AEvent.schedule 1,
         AEvent.reportState "c" "wait retry", AEvent.reportState "c" "running"]
    ∧ (runFunc ((AutoSocket.construct "c" true ConnectOutcome.success).1)
        probeMsg WriteOutcome.brokenPipe).1.iosock = false := by
  exact ⟨rfl, by decide, rfl⟩

/-- C3 (holding part): `runFunc` is a silent no-op whenever no socket is
open — the state, counters and event log are untouched. -/
theorem runFunc_noop_when_closed (a : AutoSocket) (m : Message) (w : WriteOutcome)
    (h : a.iosock = false) : runFunc a m w = (a, []) := by
  unfold runFunc
  simp [h]

/-- Witness for the no-socket no-op: a peer whose connect attempt was
refused has no socket, and `runFunc` leaves it untouched. -/
theorem runFunc_noop_when_closed_witness :
    ((AutoSocket.construct "c" false ConnectOutcome.refused).1.iosock = false)
    ∧ runFunc ((AutoSocket.construct "c" false ConnectOutcome.refused).1)
        probeMsg WriteOutcome.success =
        ((AutoSocket.construct "c" false ConnectOutcome.refused).1, []) :=
  ⟨rfl, runFunc_noop_when_closed _ probeMsg WriteOutcome.success rfl⟩

/-- C4 counterexample: for the frame header encoding payload length 0 —
exactly the 10 bytes `writemessage` would emit for a 0-byte payload — the
codec does not return any decoded Message: the call returns None (with the
state reset), refuting the claim that the zero-payload Message is returned
once the header is consumed. -/
theorem morereaddata_zero_header_no_message :
    ¬ ∃ (s : SockReadWriter) (m : Message),
        morereaddata SockReadWriter.reset (header10 0) = Except.ok (s, some m) := by
  rintro ⟨s, m, hm⟩
  have he : morereaddata SockReadWriter.reset (header10 0) =
      Except.ok (SockReadWriter.reset, (none : Option Message)) := rfl
  rw [he] at hm
  simp at hm

/-- C4 (amended): consuming a 10-byte header whose numeric value is 0
completes without requiring any payload bytes, but produces no Message:
`morereaddata` returns None with the codec reset (`instate = 0`, empty
accumulator) to await a fresh header, silently dropping the empty frame.
(The pickle of a Message is never empty, so `writemessage` never emits
such a frame.) -/
theorem morereaddata_zero_header (h : List Nat) (hlen : h.length = 10)
    (hparse : pyInt h = some 0) :
    morereaddata SockReadWriter.reset h =
      Except.ok (SockReadWriter.reset, (none : Option Message)) := by
  unfold morereaddata SockReadWriter.reset
  simp [hlen, hparse]

/-- Witness for the amended C4 at the encoder's own length-0 header. -/
theorem morereaddata_zero_header_witness :
    (header10 0).length = 10 ∧ pyInt (header10 0) = some 0
    ∧ morereaddata SockReadWriter.reset (header10 0) =
        Except.ok (SockReadWriter.reset, (none : Option Message)) :=
  ⟨by decide, by decide, morereaddata_zero_header (header10 0) (by decide) (by decide)⟩

/-- C6 counterexample: a peer whose construction-time connect was refused
has a retry timer scheduled (delay 0.5s, firing `tryConnect`); calling
`closeLink` puts it in state `closed`, but when that pending timer fires,
`tryConnect` — which never checks the current state — moves it to
`wait retry` (scheduling yet another retry), so the peer does not stay
`closed`. -/
theorem closeLink_not_terminal_counterexample :
    AEvent.schedule 1 ∈ (AutoSocket.construct "c" false ConnectOutcome.refused).2
    ∧ (closeLink (AutoSocket.construct "c" false ConnectOutcome.refused).1).1.state
        = "closed"
    ∧ (tryConnect
          (closeLink (AutoSocket.construct "c" false ConnectOutcome.refused).1).1
          ConnectOutcome.refused).1.state = "wait retry" := by
  exact ⟨by decide, rfl, rfl⟩

/-- C6 (amended): after `closeLink` (messageMan.py lines 202-210) the state
is `closed`, but the close is not terminal: any later `tryConnect`
invocation — in particular a previously scheduled retry timer firing —
unconditionally attempts a new connection and leaves `closed`, reaching
`initiated` on success and `wait retry` (with another retry scheduled) on
failure. -/
theorem closeLink_then_retry_reopens (a : AutoSocket) (oc : ConnectOutcome) :
    (closeLink a).1.state = "closed"
    ∧ (tryConnect (closeLink a).1 oc).1.state ≠ "closed" := by
  constructor
  · unfold closeLink
    split
    · exact updateState_state _ _
    · exact updateState_state _ _
  · rw [tryConnect_state]
    cases oc
    · decide
    · decide
    · show "wait retry" ≠ "closed"
      decide

theorem failTimes_spec (n : Nat) : ∀ a : AutoSocket,
    scheduleDelays (failTimes a n).2
        = (List.range n).map (fun k => retryDelayHalves (a.retrycount + k + 1))
    ∧ (failTimes a n).1.retrycount = a.retrycount + n := by
  induction n with
  | zero =>
      intro a
      constructor
      · simp [failTimes, scheduleDelays]
      · simp [failTimes]
  | succ n ih =>
      intro a
      obtain ⟨ih1, ih2⟩ := ih (tryConnect a ConnectOutcome.refused).1
      constructor
      · show scheduleDelays
            ((tryConnect a ConnectOutcome.refused).2
              ++ (failTimes (tryConnect a ConnectOutcome.refused).1 n).2)
            = _
        rw [scheduleDelays_append, tryConnect_refused_schedules, ih1,
          tryConnect_refused_retrycount, List.range_succ_eq_map, List.map_cons,
          List.map_map, List.singleton_append]
        have hfun : ((fun k => retryDelayHalves (a.retrycount + k + 1)) ∘ Nat.succ)
            = fun k => retryDelayHalves (a.retrycount + 1 + k + 1) := by
          funext k
          simp only [Function.comp_apply]
          congr 1
          omega
        rw [hfun]
      · show (failTimes (tryConnect a ConnectOutcome.refused).1 n).1.retrycount = _
        rw [ih2, tryConnect_refused_retrycount]
        omega

theorem retryDelay_formula (N : Nat) :
    halvesToSeconds (retryDelayHalves N) = min ((N : Rat) * (1 / 2)) 4 := by
  unfold retryDelayHalves halvesToSeconds
  by_cases h : N > 8
  · rw [if_pos h, min_eq_right]
    · norm_num
    · have hc : (8 : Rat) < (N : Rat) := by exact_mod_cast h
      linarith
  · rw [if_neg h, min_eq_left]
    · ring
    · have hc : (N : Rat) ≤ 8 := by exact_mod_cast Nat.not_lt.mp h
      linarith

/-- C10: linear capped back-off and reset. Starting from a freshly
initialized active peer, after N consecutive refused connect attempts
(the construction-time attempt plus the retries its timers fire) the
retry counter equals N and the delay scheduled by the Nth failure equals
`min(N * 0.5, 4)` seconds; and any `processReady` call that receives a
non-empty read and returns resets the retry counter to 0. -/
theorem retry_backoff_and_reset (N : Nat) (hN : 1 ≤ N) (b : AutoSocket)
    (rd : List Nat) (hrd : rd ≠ []) :
    ((scheduleDelays (failTimes (freshAuto "client" false) N).2)[N - 1]?).map
        halvesToSeconds = some (min ((N : Rat) * (1 / 2)) 4)
    ∧ (failTimes (freshAuto "client" false) N).1.retrycount = N
    ∧ (match processReady b (ReadOutcome.data rd) with
       | Except.ok p => p.1.retrycount = 0
       | Except.error _ => True) := by
  obtain ⟨h1, h2⟩ := failTimes_spec N (freshAuto "client" false)
  refine ⟨?_, ?_, ?_⟩
  · rw [h1, List.getElem?_map _ (List.range N) (N - 1),
      List.getElem?_range (by omega : N - 1 < N)]
    show some (halvesToSeconds (retryDelayHalves (0 + (N - 1) + 1)))
        = some (min ((N : Rat) * (1 / 2)) 4)
    have harg : 0 + (N - 1) + 1 = N := by omega
    rw [harg, retryDelay_formula]
  · rw [h2]
    simp [freshAuto]
  · cases rd with
    | nil => exact absurd rfl hrd
    | cons x xs =>
        rcases hm : morereaddata b.rwagent (x :: xs) with e | p2
        · simp [processReady, hm]
        · rcases p2 with ⟨rw2, om⟩
          rcases om with _ | m <;>
            simp [processReady, hm, updateState_retrycount]

/-- Witness for C10 at N = 1 with a one-byte read on a connected peer. -/
theorem retry_backoff_and_reset_witness :
    (1 ≤ 1 ∧ ([48] : List Nat) ≠ [])
    ∧ (((scheduleDelays (failTimes (freshAuto "client" false) 1).2)[1 - 1]?).map
          halvesToSeconds = some (min (((1 : Nat) : Rat) * (1 / 2)) 4)
       ∧ (failTimes (freshAuto "client" false) 1).1.retrycount = 1
       ∧ (match processReady ((AutoSocket.construct "w" true ConnectOutcome.success).1)
              (ReadOutcome.data [48]) with
          | Except.ok p => p.1.retrycount = 0
          | Except.error _ => True)) :=
  ⟨⟨Nat.le_refl 1, by decide⟩,
   retry_backoff_and_reset 1 (Nat.le_refl 1)
     ((AutoSocket.construct "w" true ConnectOutcome.success).1) [48] (by decide)⟩

end MessageMan
